import Mathlib

/-!
Verification of the invoice generator (Excel → PDF batch converter).

Shallow embedding of `invoice_generator.py` and `web_app.py`:
spreadsheet cells become an inductive `Cell` type, a row is a `List Cell`
paired with the header list, Python `float` becomes a partial function on
cells (`Option ℚ`), and the stateful row-grouping loop of
`InvoiceGenerator.read_excel_data` becomes an explicit fold `readRows`
threading the "current invoice" cursor.  Fallible steps (Python exceptions)
are `Option`/`Except` values.
-/

/-- A spreadsheet cell value as delivered by `openpyxl` with
`values_only=True`: an empty cell (`None` in Python), a string, a number,
or a datetime.  A datetime cell is represented by the string its
`strftime('%Y-%m-%d')` would produce. -/
inductive Cell where
  | empty : Cell
  | str : String → Cell
  | num : ℚ → Cell
  | date : String → Cell
deriving DecidableEq, Repr

/-- Python truthiness of a cell value: `None` and `""` and `0` are falsy,
everything else (including any datetime) is truthy. -/
def Cell.truthy : Cell → Bool
  | .empty => false
  | .str s => s ≠ ""
  | .num q => q ≠ 0
  | .date _ => true

/-- A cell is blank when it holds nothing: an empty cell or the empty
string.  (A numeric `0` is NOT blank — the cell does hold a value.) -/
def Cell.isBlank : Cell → Bool
  | .empty => true
  | .str s => s = ""
  | _ => false

/-- Python `str()` of a cell value.  `str(None) = "None"`.  For numeric
cells Python formats the float; the exact digits of that formatting are
not relied on by any theorem below, so the rational's own rendering is
used. -/
def Cell.pyStr : Cell → String
  | .empty => "None"
  | .str s => s
  | .num q => toString q
  | .date s => s

/-- Python `a or b`: `a` when `a` is truthy, else `b`. -/
def pyOr (a b : Cell) : Cell := if a.truthy then a else b

/-- `dict(zip(headers, row))[col]` lookup: `zip` truncates to the shorter
list and a duplicated header keeps the later column, hence the lookup over
the reversed association list.  `none` means the key is absent. -/
def rowGet (headers : List String) (row : List Cell) (col : String) : Option Cell :=
  ((headers.zip row).reverse).lookup col

/-- `row_data.get(col, d)`: the stored value when the key is present
(even when that value is `None`), otherwise the default `d`. -/
def rowGetD (headers : List String) (row : List Cell) (col : String) (d : Cell) : Cell :=
  (rowGet headers row col).getD d

/-- Decimal value of a digit string. -/
def digitsToNat (cs : List Char) : Nat :=
  cs.foldl (fun a c => a * 10 + (c.toNat - 48)) 0

/-- Exponent part of a float literal: optional sign then a nonempty digit
run. -/
def parseExp (cs : List Char) : Option ℤ :=
  let p : ℤ × List Char :=
    match cs with
    | '+' :: r => (1, r)
    | '-' :: r => (-1, r)
    | r => (1, r)
  if p.2 ≠ [] ∧ p.2.all Char.isDigit then some (p.1 * digitsToNat p.2) else none

/-- Mantissa of a float literal: `digits`, `digits.`, `digits.digits` or
`.digits`. -/
def parseMantissa (cs : List Char) : Option ℚ :=
  let ip := cs.takeWhile Char.isDigit
  let rest := cs.dropWhile Char.isDigit
  match rest with
  | [] => if ip = [] then none else some (digitsToNat ip : ℚ)
  | '.' :: fp =>
      if fp.all Char.isDigit ∧ (ip ≠ [] ∨ fp ≠ []) then
        some ((digitsToNat ip : ℚ) + (digitsToNat fp : ℚ) / (10 : ℚ) ^ fp.length)
      else none
  | _ => none

/-- Strip leading and trailing whitespace from a character list. -/
def trimChars (cs : List Char) : List Char :=
  ((cs.dropWhile Char.isWhitespace).reverse.dropWhile Char.isWhitespace).reverse

/-- Python `float(s)` on a string: surrounding whitespace stripped,
optional sign, decimal mantissa with optional exponent; anything else
raises `ValueError` (`none`).  (The rarely used `inf`/`nan` literals and
underscore digit separators are not modelled; no theorem below touches
them.) -/
def parseFloat (s : String) : Option ℚ :=
  let cs := trimChars s.toList
  let p : ℚ × List Char :=
    match cs with
    | '+' :: r => (1, r)
    | '-' :: r => (-1, r)
    | r => (1, r)
  let mant := p.2.takeWhile (fun c => !(c == 'e' || c == 'E'))
  let expPart := p.2.dropWhile (fun c => !(c == 'e' || c == 'E'))
  match expPart with
  | [] => (parseMantissa mant).map (fun m => p.1 * m)
  | _ :: er => do
      let m ← parseMantissa mant
      let e ← parseExp er
      some (p.1 * m * (10 : ℚ) ^ e)

/-- Python `float(v)` on a cell value: numbers pass through, strings are
parsed, `None` and datetimes raise (`none`). -/
def pyFloat : Cell → Option ℚ
  | .num q => some q
  | .str s => parseFloat s
  | _ => none

/-- One line item as built by `read_excel_data`: the raw `Item Name`
value plus `float`-coerced quantity and price. -/
structure LineItem where
  name : Cell
  quantity : ℚ
  price : ℚ
deriving DecidableEq, Repr

/-- One invoice record as built by `read_excel_data`.  String-column
fields hold the raw cell values (`.get(col, '')`), `invoice_number` is the
`str()` of its cell, `date` holds the raw cell value or the current
processing date when the `Date` key is absent. -/
structure Invoice where
  customer_name : Cell
  address : Cell
  phone : Cell
  invoice_number : String
  date : Cell
  tax_percent : ℚ
  discount_percent : ℚ
  items : List LineItem
deriving DecidableEq, Repr

/-- The item dict literal of `read_excel_data` (lines 129–133):
`float(row_data.get('Quantity', 0) or 0)` and likewise for `Price`; a
`ValueError` from either `float` aborts the whole read (`none`). -/
def buildLineItem (headers : List String) (row : List Cell) : Option LineItem := do
  let q ← pyFloat (pyOr (rowGetD headers row "Quantity" (Cell.num 0)) (Cell.num 0))
  let p ← pyFloat (pyOr (rowGetD headers row "Price" (Cell.num 0)) (Cell.num 0))
  some { name := rowGetD headers row "Item Name" (Cell.str "")
       , quantity := q
       , price := p }

/-- The new-invoice dict literal of `read_excel_data` (lines 116–125),
with `now` the `datetime.now().strftime('%Y-%m-%d')` string; a
`ValueError` from coercing `Tax %` or `Discount %` aborts the whole read
(`none`). -/
def buildInvoice (headers : List String) (row : List Cell) (now : String) : Option Invoice := do
  let tax ← pyFloat (pyOr (rowGetD headers row "Tax %" (Cell.num 0)) (Cell.num 0))
  let disc ← pyFloat (pyOr (rowGetD headers row "Discount %" (Cell.num 0)) (Cell.num 0))
  some { customer_name := rowGetD headers row "Customer Name" (Cell.str "")
       , address := rowGetD headers row "Address" (Cell.str "")
       , phone := rowGetD headers row "Phone Number" (Cell.str "")
       , invoice_number := (rowGetD headers row "Invoice Number" (Cell.str "")).pyStr
       , date := rowGetD headers row "Date" (Cell.str now)
       , tax_percent := tax
       , discount_percent := disc
       , items := [] }

/-- Truthiness of `row_data.get(col)` with no default: a missing key
(`None`) is falsy. -/
def optTruthy (o : Option Cell) : Bool :=
  match o with
  | some c => c.truthy
  | none => false

/-- The `if row_data.get('Invoice Number'):` test (line 110). -/
def invTruthy (headers : List String) (row : List Cell) : Bool :=
  optTruthy (rowGet headers row "Invoice Number")

/-- The `row_data.get('Item Name')` truthiness test (line 128). -/
def itemTruthy (headers : List String) (row : List Cell) : Bool :=
  optTruthy (rowGet headers row "Item Name")

/-- The row loop of `read_excel_data` (lines 106–138) as an explicit
fold: `cur` is `current_invoice`, `acc` the `invoices` list.  A truthy
`Invoice Number` closes the current record and opens a new one; then a
truthy `Item Name` appends a line item to the open record (short-circuit:
with no open record the row's numeric fields are never touched).  A
`ValueError` anywhere propagates (`none`). -/
def readRows (headers : List String) (now : String)
    (rows : List (List Cell)) (cur : Option Invoice) (acc : List Invoice) :
    Option (List Invoice) :=
  match rows with
  | [] => some (acc ++ cur.toList)
  | row :: rest =>
    if invTruthy headers row then
      match buildInvoice headers row now with
      | none => none
      | some newInv =>
        let acc' := acc ++ cur.toList
        if itemTruthy headers row then
          match buildLineItem headers row with
          | none => none
          | some it =>
              readRows headers now rest (some { newInv with items := newInv.items ++ [it] }) acc'
        else
          readRows headers now rest (some newInv) acc'
    else
      match cur with
      | none => readRows headers now rest none acc
      | some c =>
        if itemTruthy headers row then
          match buildLineItem headers row with
          | none => none
          | some it => readRows headers now rest (some { c with items := c.items ++ [it] }) acc
        else
          readRows headers now rest (some c) acc

/-- `InvoiceGenerator.read_excel_data`: headers are the first sheet row,
the data rows follow; the whole read fails (`none`) when any reached
`float` conversion raises. -/
def read_excel_data (headers : List String) (rows : List (List Cell)) (now : String) :
    Option (List Invoice) :=
  readRows headers now rows none []

/-- The totals dict returned by `calculate_totals`. -/
structure Totals where
  subtotal : ℚ
  discount_amount : ℚ
  subtotal_after_discount : ℚ
  tax_amount : ℚ
  total : ℚ
deriving DecidableEq, Repr

/-- `InvoiceGenerator.calculate_totals` (lines 143–157). -/
def calculate_totals (items : List LineItem) (tax_percent discount_percent : ℚ) : Totals :=
  let subtotal := (items.map (fun item => item.quantity * item.price)).sum
  let discount_amount := subtotal * (discount_percent / 100)
  let subtotal_after_discount := subtotal - discount_amount
  let tax_amount := subtotal_after_discount * (tax_percent / 100)
  let total := subtotal_after_discount + tax_amount
  { subtotal := subtotal
  , discount_amount := discount_amount
  , subtotal_after_discount := subtotal_after_discount
  , tax_amount := tax_amount
  , total := total }

/-- One line of the totals table built by `generate_pdf` (lines 277–301).
Each constructor carries the rational amounts shown on that line; the
fixed label text and the 2-decimal / 1-decimal string formatting of
`reportlab` output are abstracted into the constructor identity. -/
inductive TRow where
  | subtotalRow (amount : ℚ)
  | discountRow (percent amount : ℚ)
  | subtotalAfterDiscountRow (amount : ℚ)
  | taxRow (percent amount : ℚ)
  | totalRow (amount : ℚ)
deriving DecidableEq, Repr

/-- Recognizer for the `Subtotal:` line. -/
def TRow.isSubtotal : TRow → Bool
  | .subtotalRow _ => true
  | _ => false

/-- Recognizer for the `Discount (D%):` line. -/
def TRow.isDiscount : TRow → Bool
  | .discountRow _ _ => true
  | _ => false

/-- Recognizer for the `Subtotal after Discount:` line. -/
def TRow.isSubtotalAfterDiscount : TRow → Bool
  | .subtotalAfterDiscountRow _ => true
  | _ => false

/-- Recognizer for the `Tax (T%):` line. -/
def TRow.isTax : TRow → Bool
  | .taxRow _ _ => true
  | _ => false

/-- Recognizer for the `Total Amount Due:` line. -/
def TRow.isTotal : TRow → Bool
  | .totalRow _ => true
  | _ => false

/-- The `totals_data` list built by `generate_pdf` (lines 277–301):
`Subtotal:` always; the discount pair only when `discount_percent > 0`;
the tax line only when `tax_percent > 0`; `Total Amount Due:` always
last. -/
def totals_data (inv : Invoice) : List TRow :=
  let t := calculate_totals inv.items inv.tax_percent inv.discount_percent
  ([TRow.subtotalRow t.subtotal]
    ++ (if inv.discount_percent > 0 then
          [TRow.discountRow inv.discount_percent t.discount_amount,
           TRow.subtotalAfterDiscountRow t.subtotal_after_discount]
        else [])
    ++ (if inv.tax_percent > 0 then [TRow.taxRow inv.tax_percent t.tax_amount] else []))
    ++ [TRow.totalRow t.total]

/-- The invoice-date display logic of `generate_pdf` (lines 197–203): a
datetime is formatted with `strftime`, any other truthy value is shown
via `str()`, and a falsy stored date falls back to the current date. -/
def invoice_date_display (d : Cell) (now : String) : String :=
  match d with
  | Cell.date s => s
  | c => if c.truthy then c.pyStr else now

/-- Whether a string begins with the path separator `/`. -/
def startsWithSlash (s : String) : Bool :=
  match s.data with
  | '/' :: _ => true
  | _ => false

/-- Whether a string ends with the path separator `/`. -/
def endsWithSlash (s : String) : Bool :=
  match s.data.getLast? with
  | some '/' => true
  | _ => false

/-- Python `os.path.join(a, b)` for the two-argument uses in this
repository: an absolute second component discards the first, an empty or
slash-terminated first component concatenates directly, otherwise a `/`
separator is inserted. -/
def pyJoin (a b : String) : String :=
  if startsWithSlash b then b
  else if a = "" then b
  else if endsWithSlash a then a ++ b
  else a ++ "/" ++ b

/-- The output path written by `generate_pdf` (line 162):
`os.path.join(output_folder, f"Invoice_{invoice_number}.pdf")`. -/
def generate_pdf_filename (output_folder invoice_number : String) : String :=
  pyJoin output_folder ("Invoice_" ++ invoice_number ++ ".pdf")

/-- The path probed by `web_app.download_invoice` (line 88):
`os.path.join('generated_invoices', f'{invoice_number}.pdf')`. -/
def download_invoice_path (invoice_number : String) : String :=
  pyJoin "generated_invoices" (invoice_number ++ ".pdf")

/-- The generation loop of `process_excel_file` (lines 356–359) over an
already-read invoice list.  `render` stands for `generate_pdf`, whose
file-system outcome is outside the embedding: `Except.ok` is the returned
filename, `Except.error` a raised exception.  The loop has no exception
handler, so the first error aborts it and discards `generated_files`
(which is only returned on full success); the pair returned here exposes
the files written before the abort together with the propagated error. -/
def process_excel_file (render : Invoice → Except String String) :
    List Invoice → List String → List String × Option String
  | [], acc => (acc, none)
  | inv :: rest, acc =>
    match render inv with
    | Except.ok f => process_excel_file render rest (acc ++ [f])
    | Except.error e => (acc, some e)

/-- Modelled from the spec: a field is "non-empty" when its key is
present and the cell is not blank (spec §8 "rows with non-empty Invoice
Number"). -/
def specNonEmpty (o : Option Cell) : Bool :=
  match o with
  | some c => !c.isBlank
  | none => false

/-- Modelled from the spec: the number of data rows whose
`Invoice Number` field is non-empty. -/
def specCountInvoiceRows (headers : List String) (rows : List (List Cell)) : Nat :=
  (rows.filter (fun r => specNonEmpty (rowGet headers r "Invoice Number"))).length

/-- The `Item Name` value a line item built from `row` would store. -/
def itemNameOf (headers : List String) (row : List Cell) : Cell :=
  rowGetD headers row "Item Name" (Cell.str "")

/-- Region decomposition of a row list, parametric in the "starts a
record" and "carries an item" predicates: one entry per region (a start
row followed by its non-start continuation rows, rows before the first
start dropped), each entry listing the `Item Name` values of the region's
item rows in row order.  Written as the same state-passing fold as
`readRows`, with `cur` the open region's collected names. -/
def regionNamesAux (isStart hasItem : List Cell → Bool) (name : List Cell → Cell) :
    List (List Cell) → Option (List Cell) → List (List Cell)
  | [], cur => cur.toList
  | r :: rs, cur =>
    if isStart r then
      cur.toList ++ regionNamesAux isStart hasItem name rs
        (some (if hasItem r then [name r] else []))
    else
      match cur with
      | none => regionNamesAux isStart hasItem name rs none
      | some c =>
          regionNamesAux isStart hasItem name rs
            (some (c ++ if hasItem r then [name r] else []))

/-- Per-record item names under the code's own grouping (truthiness
tests, as in `readRows`). -/
def regionNames (headers : List String) (rows : List (List Cell)) : List (List Cell) :=
  regionNamesAux (invTruthy headers) (itemTruthy headers) (itemNameOf headers) rows none

/-- Modelled from the spec: per-record item names when both the region
boundary ("next row with non-empty `Invoice Number`") and the item count
("rows with non-empty `Item Name`") follow the spec's non-empty test. -/
def specRegionNames (headers : List String) (rows : List (List Cell)) : List (List Cell) :=
  regionNamesAux (fun r => specNonEmpty (rowGet headers r "Invoice Number"))
    (fun r => specNonEmpty (rowGet headers r "Item Name")) (itemNameOf headers) rows none

/-- The item-name list a finished invoice exposes. -/
def Invoice.itemNames (inv : Invoice) : List Cell :=
  inv.items.map (fun it => it.name)

/-- A numeric field is empty or missing: the key is absent, or the cell
is empty (`None`) or the empty string. -/
def blankOrMissing (o : Option Cell) : Prop :=
  o = none ∨ o = some Cell.empty ∨ o = some (Cell.str "")

/-- A minimal concrete invoice record used by the batch-failure
scenarios. -/
def sampleInvoice (n : String) : Invoice :=
  { customer_name := Cell.str "Customer"
  , address := Cell.str ""
  , phone := Cell.str ""
  , invoice_number := n
  , date := Cell.str "2026-10-12"
  , tax_percent := 0
  , discount_percent := 0
  , items := [] }

/-- A rendering outcome where the record numbered `"A"` hits an
`IOFailure` (its output write fails) and every other record renders
fine. -/
def failOnA : Invoice → Except String String :=
  fun inv =>
    if inv.invoice_number = "A" then Except.error "disk full"
    else Except.ok (generate_pdf_filename "generated_invoices" inv.invoice_number)

/-! ## Helper lemmas about the grouper fold -/

/-- A line item stores the row's raw `Item Name` value. -/
theorem buildLineItem_name (headers : List String) (row : List Cell) (it : LineItem)
    (h : buildLineItem headers row = some it) : it.name = itemNameOf headers row := by
  unfold buildLineItem at h
  cases hq : pyFloat (pyOr (rowGetD headers row "Quantity" (Cell.num 0)) (Cell.num 0)) <;>
    rw [hq] at h
  · simp at h
  · cases hp : pyFloat (pyOr (rowGetD headers row "Price" (Cell.num 0)) (Cell.num 0)) <;>
      rw [hp] at h
    · simp at h
    · simp [Option.bind] at h
      simp [← h, itemNameOf]

/-- A freshly opened invoice has no items yet. -/
theorem buildInvoice_items (headers : List String) (row : List Cell) (now : String)
    (inv : Invoice) (h : buildInvoice headers row now = some inv) : inv.items = [] := by
  unfold buildInvoice at h
  cases ht : pyFloat (pyOr (rowGetD headers row "Tax %" (Cell.num 0)) (Cell.num 0)) <;>
    rw [ht] at h
  · simp at h
  · cases hd : pyFloat (pyOr (rowGetD headers row "Discount %" (Cell.num 0)) (Cell.num 0)) <;>
      rw [hd] at h
    · simp at h
    · simp [Option.bind] at h
      simp [← h]

/-- A freshly opened invoice stores `row_data.get('Date', now)`. -/
theorem buildInvoice_date (headers : List String) (row : List Cell) (now : String)
    (inv : Invoice) (h : buildInvoice headers row now = some inv) :
    inv.date = rowGetD headers row "Date" (Cell.str now) := by
  unfold buildInvoice at h
  cases ht : pyFloat (pyOr (rowGetD headers row "Tax %" (Cell.num 0)) (Cell.num 0)) <;>
    rw [ht] at h
  · simp at h
  · cases hd : pyFloat (pyOr (rowGetD headers row "Discount %" (Cell.num 0)) (Cell.num 0)) <;>
      rw [hd] at h
    · simp at h
    · simp [Option.bind] at h
      simp [← h]

/-- Main invariant of the grouper fold: on success, the per-record item
names of the result are the accumulator's followed by the region
decomposition of the remaining rows, seeded with the open record's
already-collected names. -/
theorem readRows_names (headers : List String) (now : String) :
    ∀ (rows : List (List Cell)) (cur : Option Invoice) (acc res : List Invoice),
      readRows headers now rows cur acc = some res →
      res.map Invoice.itemNames =
        acc.map Invoice.itemNames ++
          regionNamesAux (invTruthy headers) (itemTruthy headers) (itemNameOf headers) rows
            (cur.map Invoice.itemNames) := by
  intro rows
  induction rows with
  | nil =>
      intro cur acc res h
      simp only [readRows] at h
      obtain rfl : acc ++ cur.toList = res := by simpa using h
      cases cur <;> simp [regionNamesAux]
  | cons row rest ih =>
      intro cur acc res h
      simp only [readRows] at h
      by_cases hs : invTruthy headers row
      · rw [if_pos hs] at h
        cases hbi : buildInvoice headers row now
        · simp [hbi] at h
        · rename_i newInv
          simp only [hbi] at h
          have hni : newInv.items = [] := buildInvoice_items headers row now newInv hbi
          by_cases hit : itemTruthy headers row
          · simp only [hit, if_true] at h
            cases hbl : buildLineItem headers row
            · simp [hbl] at h
            · rename_i it
              simp only [hbl] at h
              have hn : it.name = itemNameOf headers row :=
                buildLineItem_name headers row it hbl
              rw [ih _ _ _ h]
              simp [regionNamesAux, hs, hit, Invoice.itemNames, hni, hn]
              cases cur <;> simp [Invoice.itemNames]
          · simp only [hit, if_false, Bool.false_eq_true] at h
            rw [ih _ _ _ h]
            simp [regionNamesAux, hs, hit, Invoice.itemNames, hni]
            cases cur <;> simp [Invoice.itemNames]
      · rw [if_neg hs] at h
        cases cur with
        | none =>
            rw [ih _ _ _ h]
            simp [regionNamesAux, hs]
        | some c =>
            simp only [] at h
            by_cases hit : itemTruthy headers row
            · simp only [hit, if_true] at h
              cases hbl : buildLineItem headers row
              · simp [hbl] at h
              · rename_i it
                simp only [hbl] at h
                have hn : it.name = itemNameOf headers row :=
                  buildLineItem_name headers row it hbl
                rw [ih _ _ _ h]
                simp [regionNamesAux, hs, hit, Invoice.itemNames, hn]
            · simp only [hit, if_false, Bool.false_eq_true] at h
              rw [ih _ _ _ h]
              simp [regionNamesAux, hs, hit, Invoice.itemNames]

/-- On success, the grouper emits one record per truthy
`Invoice Number` row, plus the open record. -/
theorem readRows_length (headers : List String) (now : String) :
    ∀ (rows : List (List Cell)) (cur : Option Invoice) (acc res : List Invoice),
      readRows headers now rows cur acc = some res →
      res.length = acc.length + cur.toList.length
        + (rows.filter (fun r => invTruthy headers r)).length := by
  intro rows
  induction rows with
  | nil =>
      intro cur acc res h
      simp only [readRows] at h
      obtain rfl : acc ++ cur.toList = res := by simpa using h
      simp
  | cons row rest ih =>
      intro cur acc res h
      simp only [readRows] at h
      by_cases hs : invTruthy headers row
      · rw [if_pos hs] at h
        cases hbi : buildInvoice headers row now
        · simp [hbi] at h
        · rename_i newInv
          simp only [hbi] at h
          by_cases hit : itemTruthy headers row
          · simp only [hit, if_true] at h
            cases hbl : buildLineItem headers row
            · simp [hbl] at h
            · rename_i it
              simp only [hbl] at h
              have := ih _ _ _ h
              simp [List.filter, hs, this]
              cases cur <;> simp <;> omega
          · simp only [hit, if_false, Bool.false_eq_true] at h
            have := ih _ _ _ h
            simp [List.filter, hs, this]
            cases cur <;> simp <;> omega
      · rw [if_neg hs] at h
        cases cur with
        | none =>
            have := ih _ _ _ h
            simp [List.filter, hs, this]
        | some c =>
            simp only [] at h
            by_cases hit : itemTruthy headers row
            · simp only [hit, if_true] at h
              cases hbl : buildLineItem headers row
              · simp [hbl] at h
              · rename_i it
                simp only [hbl] at h
                have := ih _ _ _ h
                simp [List.filter, hs, this]
            · simp only [hit, if_false, Bool.false_eq_true] at h
              have := ih _ _ _ h
              simp [List.filter, hs, this]

/-- When no row carries an item, every region's name list is empty. -/
theorem regionNamesAux_all_nil (isStart hasItem : List Cell → Bool) (name : List Cell → Cell) :
    ∀ (rows : List (List Cell)) (cur : Option (List Cell)),
      (∀ r ∈ rows, hasItem r = false) → (∀ l, cur = some l → l = []) →
      ∀ l ∈ regionNamesAux isStart hasItem name rows cur, l = [] := by
  intro rows
  induction rows with
  | nil =>
      intro cur hrows hcur l hl
      cases cur with
      | none => simp [regionNamesAux] at hl
      | some c => simp [regionNamesAux] at hl; exact hl ▸ hcur c rfl
  | cons row rest ih =>
      intro cur hrows hcur l hl
      have hrow : hasItem row = false := hrows row (List.mem_cons_self row rest)
      have hrest : ∀ r ∈ rest, hasItem r = false :=
        fun r hr => hrows r (List.mem_cons_of_mem row hr)
      simp only [regionNamesAux, hrow] at hl
      by_cases hs : isStart row
      · rw [if_pos hs] at hl
        simp only [Bool.false_eq_true, if_false] at hl
        rcases List.mem_append.mp hl with hmem | hmem
        · cases cur with
          | none => simp at hmem
          | some c => simp at hmem; exact hmem ▸ hcur c rfl
        · exact ih (some []) hrest (by simp) l hmem
      · rw [if_neg hs] at hl
        cases cur with
        | none => exact ih none hrest (by simp) l hl
        | some c =>
            simp only [Bool.false_eq_true, if_false, List.append_nil] at hl
            exact ih (some c) hrest hcur l hl

/-- A field that is not non-empty (missing, empty cell, or empty string)
is falsy. -/
theorem specNonEmpty_false_optTruthy (o : Option Cell) (h : specNonEmpty o = false) :
    optTruthy o = false := by
  cases o with
  | none => rfl
  | some c => cases c <;> simp_all [specNonEmpty, optTruthy, Cell.isBlank, Cell.truthy]

/-- With no open record, leading rows whose `Invoice Number` is falsy
are skipped without any effect. -/
theorem readRows_drop_nonstart (headers : List String) (now : String) :
    ∀ (pre : List (List Cell)) (rest : List (List Cell)) (acc : List Invoice),
      (∀ p ∈ pre, invTruthy headers p = false) →
      readRows headers now (pre ++ rest) none acc = readRows headers now rest none acc := by
  intro pre
  induction pre with
  | nil => intro rest acc _; rfl
  | cons p t ih =>
      intro rest acc hpre
      have hp : invTruthy headers p = false := hpre p (List.mem_cons_self p t)
      simp only [List.cons_append, readRows, hp, Bool.false_eq_true, if_false]
      exact ih rest acc (fun r hr => hpre r (List.mem_cons_of_mem p hr))

/-- `float(row_data.get(col, 0) or 0)` yields `0` on an empty or missing
field. -/
theorem pyFloat_blank (o : Option Cell) (h : blankOrMissing o) :
    pyFloat (pyOr (o.getD (Cell.num 0)) (Cell.num 0)) = some 0 := by
  rcases h with rfl | rfl | rfl <;> rfl

/-- A column that is not among the headers is absent from every row
dict. -/
theorem rowGet_none (headers : List String) (row : List Cell) (col : String)
    (h : col ∉ headers) : rowGet headers row col = none := by
  unfold rowGet
  have : ∀ l : List (String × Cell), (∀ p ∈ l, p.1 ≠ col) → l.lookup col = none := by
    intro l
    induction l with
    | nil => intro _; rfl
    | cons p t ihl =>
        intro hl
        have hp : p.1 ≠ col := hl p (List.mem_cons_self p t)
        have hb : (col == p.1) = false := beq_eq_false_iff_ne.mpr (fun hc => hp hc.symm)
        simp only [List.lookup, hb]
        exact ihl (fun q hq => hl q (List.mem_cons_of_mem p hq))
  refine this _ (fun p hp => ?_)
  have hz := List.of_mem_zip (List.mem_reverse.mp hp)
  intro hc
  exact h (hc ▸ hz.1)

/-! ## Claim theorems -/

/-- C1: `calculate_totals` returns exactly the reference formulas —
subtotal is the sum over items of quantity * price, discount_amount =
subtotal * discount_percent/100, subtotal_after_discount = subtotal -
discount_amount, tax_amount = subtotal_after_discount * tax_percent/100,
total = subtotal_after_discount + tax_amount — and on items
[(qty=2, price=100), (qty=1, price=50)] with tax 10% and discount 10% it
returns subtotal=250, discount_amount=25, subtotal_after_discount=225,
tax_amount=22.5, total=247.5. -/
theorem C1_calculate_totals_formulas :
    (∀ (items : List LineItem) (tax disc : ℚ),
      (calculate_totals items tax disc).subtotal
          = (items.map (fun i => i.quantity * i.price)).sum ∧
      (calculate_totals items tax disc).discount_amount
          = (items.map (fun i => i.quantity * i.price)).sum * disc / 100 ∧
      (calculate_totals items tax disc).subtotal_after_discount
          = (calculate_totals items tax disc).subtotal
              - (calculate_totals items tax disc).discount_amount ∧
      (calculate_totals items tax disc).tax_amount
          = (calculate_totals items tax disc).subtotal_after_discount * tax / 100 ∧
      (calculate_totals items tax disc).total
          = (calculate_totals items tax disc).subtotal_after_discount
              + (calculate_totals items tax disc).tax_amount) ∧
    calculate_totals [⟨Cell.str "Item A", 2, 100⟩, ⟨Cell.str "Item B", 1, 50⟩] 10 10
      = ⟨250, 25, 225, 22.5, 247.5⟩ := by
  refine ⟨fun items tax disc => ⟨rfl, ?_, rfl, ?_, rfl⟩, ?_⟩
  · simp [calculate_totals]; ring
  · simp [calculate_totals]; ring
  · norm_num [calculate_totals, Totals.mk.injEq]

/-- C2 (counterexample): the claim counts rows with non-empty
`Invoice Number`, but the code tests Python truthiness; a cell holding
the number 0 is non-empty yet falsy, so this one-row table yields zero
records while the claim demands one. -/
theorem C2_nonempty_count_counterexample :
    ¬ ((read_excel_data ["Invoice Number"] [[Cell.num 0]] "2026-01-01").map List.length
        = some (specCountInvoiceRows ["Invoice Number"] [[Cell.num 0]])) := by decide

/-- C2 (amended): when `read_excel_data` succeeds, the number of
InvoiceRecords equals the number of data rows whose `Invoice Number`
field is truthy (non-empty string, nonzero number, or datetime). -/
theorem C2_truthy_count (headers : List String) (rows : List (List Cell)) (now : String)
    (invs : List Invoice) (h : read_excel_data headers rows now = some invs) :
    invs.length = (rows.filter (fun r => invTruthy headers r)).length := by
  have := readRows_length headers now rows none [] invs h
  simpa using this

/-- C2 (witness): a two-row table with truthy invoice numbers yields two
records. -/
theorem C2_truthy_count_witness :
    ∃ invs, read_excel_data ["Invoice Number"] [[Cell.str "A"], [Cell.str "B"]] "2026-01-01"
        = some invs ∧ invs.length = 2 := by
  cases hread : read_excel_data ["Invoice Number"] [[Cell.str "A"], [Cell.str "B"]] "2026-01-01" with
  | none => exact absurd hread (by decide)
  | some invs =>
      refine ⟨invs, rfl, ?_⟩
      rw [C2_truthy_count _ _ _ _ hread]
      decide

/-- C3 (counterexample): in a batch of two records where only the first
record's rendering fails, the second record produces no output at all —
the loop in `process_excel_file` has no exception handler, so the claim
that every other record is still rendered is false. -/
theorem C3_batch_isolation_counterexample :
    (process_excel_file failOnA [sampleInvoice "A", sampleInvoice "B"] []).1 = [] ∧
    (process_excel_file failOnA [sampleInvoice "A", sampleInvoice "B"] []).2
      = some "disk full" := by
  constructor <;> rfl

/-- C3 (amended): a rendering failure aborts the batch at the failing
record: the records before it are rendered (one output file each), the
exception propagates, and no record after it is processed; there is no
per-record failure report. -/
theorem C3_batch_abort (render : Invoice → Except String String)
    (pre post : List Invoice) (inv : Invoice) (e : String)
    (hpre : ∀ i ∈ pre, (render i).isOk) (hinv : render inv = Except.error e) :
    ∀ acc, ∃ files, files.length = pre.length ∧
      process_excel_file render (pre ++ inv :: post) acc = (acc ++ files, some e) := by
  induction pre with
  | nil =>
      intro acc
      exact ⟨[], rfl, by simp [process_excel_file, hinv]⟩
  | cons p t ih =>
      intro acc
      have hp := hpre p (List.mem_cons_self p t)
      obtain ⟨f, hf⟩ : ∃ f, render p = Except.ok f := by
        cases hr : render p <;> simp [hr, Except.isOk, Except.toBool] at hp ⊢
      obtain ⟨files, hlen, heq⟩ := ih (fun i hi => hpre i (List.mem_cons_of_mem p hi)) (acc ++ [f])
      refine ⟨f :: files, by simp [hlen], ?_⟩
      simp only [List.cons_append, process_excel_file, hf, List.append_eq]
      rw [heq]
      simp

/-- C3 (witness): record B renders, record A fails, record C is never
reached; exactly one file is produced. -/
theorem C3_batch_abort_witness :
    ∃ files, files.length = 1 ∧
      process_excel_file failOnA
          ([sampleInvoice "B"] ++ sampleInvoice "A" :: [sampleInvoice "C"]) []
        = ([] ++ files, some "disk full") :=
  C3_batch_abort failOnA [sampleInvoice "B"] [sampleInvoice "C"] (sampleInvoice "A")
    "disk full" (by decide) rfl []

/-- C4 (counterexample): a non-numeric string in a numeric field is not
coerced to 0 — `float("abc")` raises `ValueError` and the whole read
fails. -/
theorem C4_nonnumeric_failure_counterexample :
    read_excel_data ["Invoice Number", "Item Name", "Quantity"]
      [[Cell.str "A", Cell.str "X", Cell.str "abc"]] "2026-01-01" = none := by decide

/-- C4 (amended): an empty or missing numeric field (`Quantity`,
`Price`, `Tax %`, `Discount %`) is coerced to 0 rather than causing a
failure; a non-empty non-numeric string, by contrast, raises. -/
theorem C4_blank_coercion (headers : List String) (row : List Cell) (now : String)
    (htax : blankOrMissing (rowGet headers row "Tax %"))
    (hdisc : blankOrMissing (rowGet headers row "Discount %"))
    (hq : blankOrMissing (rowGet headers row "Quantity"))
    (hp : blankOrMissing (rowGet headers row "Price")) :
    (∃ inv, buildInvoice headers row now = some inv ∧
      inv.tax_percent = 0 ∧ inv.discount_percent = 0) ∧
    (∃ it, buildLineItem headers row = some it ∧ it.quantity = 0 ∧ it.price = 0) := by
  have h1 := pyFloat_blank _ htax
  have h2 := pyFloat_blank _ hdisc
  have h3 := pyFloat_blank _ hq
  have h4 := pyFloat_blank _ hp
  constructor
  · have heq : buildInvoice headers row now = some
        { customer_name := rowGetD headers row "Customer Name" (Cell.str "")
        , address := rowGetD headers row "Address" (Cell.str "")
        , phone := rowGetD headers row "Phone Number" (Cell.str "")
        , invoice_number := (rowGetD headers row "Invoice Number" (Cell.str "")).pyStr
        , date := rowGetD headers row "Date" (Cell.str now)
        , tax_percent := 0
        , discount_percent := 0
        , items := [] } := by
      simp only [rowGetD] at h1 h2
      simp only [buildInvoice, rowGetD, h1, h2]
      rfl
    exact ⟨_, heq, rfl, rfl⟩
  · have heq : buildLineItem headers row = some
        { name := rowGetD headers row "Item Name" (Cell.str "")
        , quantity := 0
        , price := 0 } := by
      simp only [rowGetD] at h3 h4
      simp only [buildLineItem, rowGetD, h3, h4]
      rfl
    exact ⟨_, heq, rfl, rfl⟩

/-- C4 (witness): `Tax %` empty, `Discount %` the empty string,
`Quantity` and `Price` missing entirely — all coerce to 0. -/
theorem C4_blank_coercion_witness :
    (∃ inv, buildInvoice ["Invoice Number", "Tax %", "Discount %"]
        [Cell.str "A", Cell.empty, Cell.str ""] "2026-01-01" = some inv ∧
      inv.tax_percent = 0 ∧ inv.discount_percent = 0) ∧
    (∃ it, buildLineItem ["Invoice Number", "Tax %", "Discount %"]
        [Cell.str "A", Cell.empty, Cell.str ""] = some it ∧
      it.quantity = 0 ∧ it.price = 0) :=
  C4_blank_coercion _ _ _ (by right; left; decide) (by right; right; decide)
    (by left; decide) (by left; decide)

/-- C5: the totals block contains the `Discount (D%):` and
`Subtotal after Discount:` lines iff discount_percent > 0, the
`Tax (T%):` line iff tax_percent > 0, always starts with `Subtotal:` and
ends with `Total Amount Due:`, and a record with zero discount and zero
tax yields exactly two lines. -/
theorem C5_totals_block_lines (inv : Invoice) :
    ((∃ r ∈ totals_data inv, r.isDiscount) ↔ 0 < inv.discount_percent) ∧
    ((∃ r ∈ totals_data inv, r.isSubtotalAfterDiscount) ↔ 0 < inv.discount_percent) ∧
    ((∃ r ∈ totals_data inv, r.isTax) ↔ 0 < inv.tax_percent) ∧
    (totals_data inv).head?.map TRow.isSubtotal = some true ∧
    (totals_data inv).getLast?.map TRow.isTotal = some true ∧
    (inv.discount_percent = 0 → inv.tax_percent = 0 → (totals_data inv).length = 2) := by
  unfold totals_data
  by_cases hd : 0 < inv.discount_percent <;> by_cases ht : 0 < inv.tax_percent <;>
    simp [hd, ht, TRow.isDiscount, TRow.isSubtotalAfterDiscount, TRow.isTax,
      TRow.isSubtotal, TRow.isTotal, List.getLast?] <;>
    first
      | rfl
      | (intro h1 h2; exact absurd (h1 ▸ hd) (lt_irrefl 0))
      | (intro h1 h2; exact absurd (h2 ▸ ht) (lt_irrefl 0))

/-- C5 (witness): a zero-discount zero-tax record gets exactly the two
lines Subtotal and Total Amount Due. -/
theorem C5_totals_block_lines_witness :
    (totals_data (sampleInvoice "W")).length = 2 :=
  (C5_totals_block_lines (sampleInvoice "W")).2.2.2.2.2 rfl rfl

/-- C6 (counterexample): the claim ends a record's contiguous region at
the next row with non-empty `Invoice Number`, but the code only closes a
record on a truthy one.  With a second row whose `Invoice Number` holds
the number 0 (non-empty yet falsy), the code folds both item rows into
one record of 2 items, while the claim's regions are two one-item
regions. -/
theorem C6_region_count_counterexample :
    ¬ ((read_excel_data ["Invoice Number", "Item Name"]
          [[Cell.str "A", Cell.str "X"], [Cell.num 0, Cell.str "Y"]] "2026-01-01").map
          (fun l => l.map (fun i => i.items.length))
        = some ((specRegionNames ["Invoice Number", "Item Name"]
          [[Cell.str "A", Cell.str "X"], [Cell.num 0, Cell.str "Y"]]).map List.length)) := by
  decide

/-- C6 (amended): when the read succeeds, each record's items are
exactly the `Item Name` values of the rows with truthy `Item Name` in
the contiguous region from its starting row up to the next row with
truthy `Invoice Number` or the end of the table, in row order; in
particular each record's item count is that region's truthy-item-row
count. -/
theorem C6_truthy_region_items (headers : List String) (rows : List (List Cell)) (now : String)
    (invs : List Invoice) (h : read_excel_data headers rows now = some invs) :
    invs.map Invoice.itemNames = regionNames headers rows ∧
    invs.map (fun i => i.items.length) = (regionNames headers rows).map List.length := by
  have h1 := readRows_names headers now rows none [] invs h
  simp only [List.map_nil, List.nil_append, Option.map_none'] at h1
  refine ⟨h1, ?_⟩
  calc invs.map (fun i => i.items.length)
      = (invs.map Invoice.itemNames).map List.length := by
        rw [List.map_map]; simp [Invoice.itemNames, Function.comp]
    _ = (regionNames headers rows).map List.length := by rw [h1]; rfl

/-- C6 (witness): record A's region spans its own row and the
continuation row (items X and Y); record B's region has no item rows. -/
theorem C6_truthy_region_items_witness :
    ∃ invs, read_excel_data ["Invoice Number", "Item Name"]
        [[Cell.str "A", Cell.str "X"], [Cell.empty, Cell.str "Y"], [Cell.str "B", Cell.empty]]
        "2026-01-01" = some invs ∧
      invs.map Invoice.itemNames = [[Cell.str "X", Cell.str "Y"], []] ∧
      invs.map (fun i => i.items.length) = [2, 0] := by
  cases hread : read_excel_data ["Invoice Number", "Item Name"]
      [[Cell.str "A", Cell.str "X"], [Cell.empty, Cell.str "Y"], [Cell.str "B", Cell.empty]]
      "2026-01-01" with
  | none => exact absurd hread (by decide)
  | some invs =>
      obtain ⟨h1, h2⟩ := C6_truthy_region_items _ _ _ _ hread
      refine ⟨invs, rfl, ?_, ?_⟩
      · rw [h1]; decide
      · rw [h2]; decide

/-- C7 (counterexample): with the `Date` column present but the cell
empty, `row_data.get('Date', now)` returns the stored `None`, so the
record's date is NOT the current processing date — the default only
fires when the key is missing. -/
theorem C7_date_default_counterexample :
    ∃ invs, read_excel_data ["Invoice Number", "Date"] [[Cell.str "A", Cell.empty]] "2026-10-12"
        = some invs ∧ ∃ inv ∈ invs, inv.date ≠ Cell.str "2026-10-12" := by
  refine ⟨[⟨Cell.str "", Cell.str "", Cell.str "", "A", Cell.empty, 0, 0, []⟩],
    by decide, ⟨Cell.str "", Cell.str "", Cell.str "", "A", Cell.empty, 0, 0, []⟩,
    by simp, by decide⟩

/-- C7 (amended): the record's date defaults to the current processing
date only when the `Date` column is missing from the table entirely; an
empty `Date` cell is stored as-is, and it is the renderer's display
logic that falls back to the current date for any falsy non-datetime
stored value. -/
theorem C7_date_default :
    (∀ (headers : List String) (row : List Cell) (now : String) (inv : Invoice),
      "Date" ∉ headers → buildInvoice headers row now = some inv → inv.date = Cell.str now) ∧
    (∀ (d : Cell) (now : String), d.truthy = false → (∀ s, d ≠ Cell.date s) →
      invoice_date_display d now = now) := by
  constructor
  · intro headers row now inv hcol h
    rw [buildInvoice_date headers row now inv h]
    simp [rowGetD, rowGet_none headers row "Date" hcol]
  · intro d now htr hnd
    cases d with
    | date s => exact absurd rfl (hnd s)
    | empty => rfl
    | str s => simp [invoice_date_display, htr]
    | num q => simp [invoice_date_display, htr]

/-- C7 (witness): a table without a `Date` column stores the processing
date, and an empty stored date displays as the processing date. -/
theorem C7_date_default_witness :
    (∃ inv, buildInvoice ["Invoice Number"] [Cell.str "A"] "2026-10-12" = some inv ∧
      inv.date = Cell.str "2026-10-12") ∧
    invoice_date_display Cell.empty "2026-10-12" = "2026-10-12" := by
  constructor
  · refine ⟨⟨Cell.str "", Cell.str "", Cell.str "", "A", Cell.str "2026-10-12", 0, 0, []⟩,
      by decide, ?_⟩
    exact C7_date_default.1 ["Invoice Number"] [Cell.str "A"] "2026-10-12" _
      (by decide) (by decide)
  · exact C7_date_default.2 Cell.empty "2026-10-12" (by decide)
      (fun s h => Cell.noConfusion h)

/-- C8 (counterexample): a row that starts an invoice but carries no
item yields a record with an empty items sequence, so not every produced
record has non-empty items. -/
theorem C8_empty_items_counterexample :
    ∃ invs, read_excel_data ["Invoice Number"] [[Cell.str "A"]] "2026-01-01" = some invs ∧
      ∃ inv ∈ invs, inv.items = [] := by
  refine ⟨[⟨Cell.str "", Cell.str "", Cell.str "", "A", Cell.str "2026-01-01", 0, 0, []⟩],
    by decide, ⟨Cell.str "", Cell.str "", Cell.str "", "A", Cell.str "2026-01-01", 0, 0, []⟩,
    by simp, rfl⟩

/-- C8 (amended): a produced record may have an empty items sequence;
when no row of the table carries a truthy `Item Name`, every produced
record's items are empty. -/
theorem C8_no_item_rows_empty (headers : List String) (rows : List (List Cell)) (now : String)
    (invs : List Invoice) (hitems : ∀ r ∈ rows, itemTruthy headers r = false)
    (h : read_excel_data headers rows now = some invs) :
    ∀ inv ∈ invs, inv.items = [] := by
  intro inv hinv
  have h1 := readRows_names headers now rows none [] invs h
  simp only [List.map_nil, List.nil_append, Option.map_none'] at h1
  have hmem : Invoice.itemNames inv ∈ invs.map Invoice.itemNames :=
    List.mem_map_of_mem _ hinv
  rw [h1] at hmem
  have hnil := regionNamesAux_all_nil (invTruthy headers) (itemTruthy headers)
    (itemNameOf headers) rows none hitems (by simp) _ hmem
  simpa [Invoice.itemNames] using hnil

/-- C8 (witness): two header-only invoice rows produce two records, both
with empty items. -/
theorem C8_no_item_rows_empty_witness :
    ∃ invs, read_excel_data ["Invoice Number"] [[Cell.str "A"], [Cell.str "B"]] "2026-01-01"
        = some invs ∧ invs ≠ [] ∧ ∀ inv ∈ invs, inv.items = [] := by
  cases hread : read_excel_data ["Invoice Number"] [[Cell.str "A"], [Cell.str "B"]] "2026-01-01" with
  | none => exact absurd hread (by decide)
  | some invs =>
      refine ⟨invs, rfl, ?_, C8_no_item_rows_empty _ _ _ _ (by decide) hread⟩
      intro hnil
      rw [hnil] at hread
      exact absurd hread (by decide)

/-- C9: a row with blank `Invoice Number` and non-blank `Item Name`
appearing before any row with non-empty `Invoice Number` is silently
dropped: the read of the whole table equals the read of the rows after
it, so it causes no failure and no record contains an item built from
it. -/
theorem C9_orphan_item_dropped (headers : List String) (now : String)
    (pre : List (List Cell)) (r : List Cell) (rest : List (List Cell))
    (hpre : ∀ p ∈ pre, specNonEmpty (rowGet headers p "Invoice Number") = false)
    (hr : specNonEmpty (rowGet headers r "Invoice Number") = false)
    (hitem : specNonEmpty (rowGet headers r "Item Name") = true) :
    read_excel_data headers (pre ++ r :: rest) now = read_excel_data headers rest now := by
  unfold read_excel_data
  have h1 : ∀ p ∈ pre ++ [r], invTruthy headers p = false := by
    intro p hp
    rcases List.mem_append.mp hp with hmem | hmem
    · exact specNonEmpty_false_optTruthy _ (hpre p hmem)
    · simp only [List.mem_singleton] at hmem
      subst hmem
      exact specNonEmpty_false_optTruthy _ hr
  have := readRows_drop_nonstart headers now (pre ++ [r]) rest [] h1
  simpa using this

/-- C9 (witness): an orphan item row (and a fully blank row before it)
leave the read of the remaining table unchanged. -/
theorem C9_orphan_item_dropped_witness :
    read_excel_data ["Invoice Number", "Item Name"]
        ([[Cell.empty, Cell.empty]]
          ++ [Cell.empty, Cell.str "Orphan"] :: [[Cell.str "B", Cell.str "Y"]])
        "2026-01-01"
      = read_excel_data ["Invoice Number", "Item Name"] [[Cell.str "B", Cell.str "Y"]]
          "2026-01-01" :=
  C9_orphan_item_dropped _ _ _ _ _ (by decide) (by decide) (by decide)

/-- C10: for every invoice number n, the renderer writes
`generated_invoices/Invoice_<n>.pdf` while the download endpoint probes
`os.path.join('generated_invoices', n + ".pdf")`; the two paths always
differ, so a generate-then-download round trip by invoice number never
finds the freshly generated document. -/
theorem C10_download_path_mismatch :
    ∀ n : String, generate_pdf_filename "generated_invoices" n ≠ download_invoice_path n := by
  intro n h
  have h1 : startsWithSlash ("Invoice_" ++ n ++ ".pdf") = false := by
    simp [startsWithSlash, String.data_append]
  have h3 : endsWithSlash "generated_invoices" = false := by decide
  have h4 : ("Invoice_" : String).length = 8 := rfl
  have h5 : (".pdf" : String).length = 4 := rfl
  have h6 : ("generated_invoices/" : String).length = 19 := rfl
  have h7 : ("generated_invoices" : String).length = 18 := rfl
  have hl := congrArg String.length h
  unfold generate_pdf_filename download_invoice_path pyJoin at hl
  rw [h1, h3] at hl
  by_cases h2 : startsWithSlash (n ++ ".pdf") <;>
    simp [h2, h3, String.length_append, h4, h5, h6, h7] at hl <;>
    omega

/-- C10 (witness): the two paths differ at the concrete invoice number
INV-001. -/
theorem C10_download_path_mismatch_witness :
    generate_pdf_filename "generated_invoices" "INV-001" ≠ download_invoice_path "INV-001" :=
  C10_download_path_mismatch "INV-001"
